import Mathlib

/-!
# Constant table of `units.hpp`

The header `units.hpp` declares, in `namespace units`, a flat table of
`static constexpr double` values: literals and closed-form derivations from
earlier entries.  The embedding below keeps one definition per entry, with the
source's name, literal and formula.  Values are rational numbers: each decimal
literal is read as the exact rational it denotes and `*`, `/` are exact, so the
rounding of binary floating point is outside the model.  Every definition is
computable.
-/

namespace units

/-! ## Natural constants -/

/-- Speed of light in vacuum [m s^-1]. -/
def c0 : ℚ := 299792458
/-- Newtonian constant of gravitation [m^3 kg^-1 s^-2]. -/
def G : ℚ := 6.67408e-11
/-- Magnetic vacuum permeability over 4 pi [m kg s^-2 A^-2]. -/
def mu0over4pi : ℚ := 1e-7
/-- Boltzmann constant [m^2 kg s^-2 K^-1]. -/
def kB : ℚ := 1.38064852e-23
/-- Planck constant over 2 pi [m^2 kg s^-1]. -/
def hbar : ℚ := 1.054571800e-34

/-- Speed of light to the power of 2. -/
def c0_2 : ℚ := c0 * c0
/-- Speed of light to the power of 3. -/
def c0_3 : ℚ := c0_2 * c0
/-- Speed of light to the power of 4. -/
def c0_4 : ℚ := c0_3 * c0

/-- Speed of light squared in [cm^2 s^-2]. -/
def c0c0_cgs : ℚ := c0_2 * 1e4

/-! ## Reference values -/

/-- Elementary charge [C]. -/
def qe : ℚ := 1.6021766208e-19

/-- Neutron mass [MeV]. -/
def mn : ℚ := 939.5654133
/-- Proton mass [MeV]. -/
def mp : ℚ := 938.2720813
/-- Electron mass [MeV]. -/
def me : ℚ := 0.5109989461

/-- Solar mass [kg]. -/
def MSkg : ℚ := 1.9884e+30
/-- Solar mass [km]; documented value 1.47657. -/
def MSkm : ℚ := MSkg * G / c0_2 * 1e-3

/-- Earth mass [kg]. -/
def MEkg : ℚ := 5.9722e+24
/-- Earth mass [km]; documented value 4.4349e-06. -/
def MEkm : ℚ := MEkg * G / c0_2 * 1e-3

/-! ## Gravitational units with G = c = mu0/(4 pi) = 1 -/

/-- Conversion factor [km^-3/fm^-3]. -/
def cfm3km3 : ℚ := 1e54
/-- Conversion factor [km/MeV]; documented value 1.32379e-60. -/
def cMeVkm : ℚ := G * qe / c0_4 * 1e3
/-- Conversion factor [km^-2/(MeV fm^-3)]; documented value 1.32379e-06. -/
def cMeVfm3km2 : ℚ := cMeVkm * cfm3km3

/-- Conversion factor [km^-2/(dyn cm^-2)]; documented value 8.26245e-40. -/
def cdyncm2km2 : ℚ := G / c0_4 * 1e5
/-- Conversion factor [km^-2/(g cm^-3)]; documented value 7.42592e-19. -/
def cgcm3km2 : ℚ := G / c0_2 * 1e9

/-- Conversion factor [km^-1/Hz]; documented value 3.33564e-6. -/
def cHzkm : ℚ := 1 / c0 * 1e3
/-- Conversion factor [km^2/(kg m^2 s^-1)]; documented value 2.47702e-30. -/
def ckgm2s1km2 : ℚ := G / c0_3 * 1e-6
/-- Conversion factor [km^3/(kg m^2)]; documented value 7.42592e-37. -/
def ckgm2km3 : ℚ := G / c0_2 * 1e-9
/-- Conversion factor [km^-2/(kg m^-3)]; documented value 7.42592e-22. -/
def ckgm3km2 : ℚ := G / c0_2 * 1e6

/-! ## Electro-magnetic units -/

/-- Conversion factor [km^-1/T]; documented value 2.87445e-16. -/
def cTkm : ℚ := 1.0 / c0_2 * 0.02583424084427487 * 1e3
/-- Conversion factor [1/A]; documented value 2.87445e-26. -/
def cA : ℚ := 1.0 / c0_2 * 2.583424084427487e-9
/-- Conversion factor [km/C]; documented value 8.61738e-21. -/
def cCkm : ℚ := 2.583424084427487e-9 / c0 * 1e-3
/-- Conversion factor [1/V]; documented value 9.58812e-28. -/
def cV : ℚ := 0.02583424084427487 / c0_3

/-- Conversion factor [km^2/(A m^2)]; documented value 2.87445e-32. -/
def cAm2km2 : ℚ := cA * 1e-6
/-- Conversion factor [km^-1/Gs]; documented value 2.87445e-20. -/
def cGskm : ℚ := cTkm * 1e-4
/-- Conversion factor [km^-1/GT]; documented value 2.87445e-7. -/
def cGTkm : ℚ := cTkm * 1e+9

/-! ## Lorene units -/

/-- Nuclear density of LORENE [kg m^-3]. -/
def LrhoNuc_si : ℚ := 1.66e+17
/-- Nuclear density of LORENE [g cm^-3]; documented value 1.66e+14. -/
def LrhoNuc_cgs : ℚ := LrhoNuc_si * 1e-3
/-- Nuclear density of LORENE [MeV fm^-3]; documented value 93.11917937. -/
def LrhoNuc_MeV : ℚ := LrhoNuc_si * c0_2 / qe * 1e-51
/-- Nuclear density of LORENE [km^-2]; documented value 1.232702e-4. -/
def LrhoNuc_km : ℚ := LrhoNuc_si * ckgm3km2

/-- Baryon mass of LORENE [MeV]; documented value 931.1917937. -/
def LmB_MeV : ℚ := 10 * LrhoNuc_MeV
/-- Baryon mass of LORENE [km]; documented value 1.2327021e-57. -/
def LmB_km : ℚ := LmB_MeV * cMeVkm

/-- Nuclear baryon number density of LORENE [fm^-3]. -/
def LnNuc_fm : ℚ := 0.1
/-- Nuclear baryon number density of LORENE [km^-3]; documented value 1e53. -/
def LnNuc_km : ℚ := LnNuc_fm * cfm3km3

/-! ## Mathematical constants -/

/-- Two times pi. -/
def M_2PI : ℚ := 6.28318530717958647692528676656
/-- Four times pi. -/
def M_4PI : ℚ := 12.5663706143591729538505735331
/-- Pi squared. -/
def M_PI_SQARE : ℚ := 9.86960440108935861883449099988
/-- Golden ratio, (sqrt(5)+1)/2. -/
def M_PHI : ℚ := 1.61803398874989484820458683437

/-! ## Powers of the speed of light and primary literals -/

/-- C1: the powers of the speed of light follow their formulas, c0_2 = c0*c0,
c0_3 = c0_2*c0 and c0_4 = c0_3*c0, hence c0_3 = c0^3 and c0_4 = c0^4 = c0_2*c0_2,
with c0 = 299792458 and c0_2 = 89875517873681764. -/
theorem c0_powers :
    c0_2 = c0 * c0 ∧ c0_3 = c0_2 * c0 ∧ c0_4 = c0_3 * c0 ∧
    c0_3 = c0 ^ 3 ∧ c0_4 = c0 ^ 4 ∧ c0_4 = c0_2 * c0_2 ∧
    c0 = 299792458 ∧ c0_2 = 89875517873681764 := by
  refine ⟨rfl, rfl, rfl, ?_, ?_, ?_, rfl, ?_⟩
  · simp only [c0_3, c0_2]; ring
  · simp only [c0_4, c0_3, c0_2]; ring
  · simp only [c0_4, c0_3, c0_2]; ring
  · simp only [c0_2, c0]; norm_num

/-- C2: the primary constants carry the reference literals, c0 = 299792458,
G = 6.67408e-11 = 667408/10^16 and kB = 1.38064852e-23 = 138064852/10^31. -/
theorem primary_literals :
    c0 = 299792458 ∧ G = 667408 / 10 ^ 16 ∧ kB = 138064852 / 10 ^ 31 := by
  refine ⟨rfl, ?_, ?_⟩
  · simp only [G]; norm_num
  · simp only [kB]; norm_num

/-! ## Documented values of the derived constants -/

/-- C3: evaluated from the literals, LrhoNuc_MeV = LrhoNuc_si*c0_2/qe*1e-51 is
93.11917159 to ten significant digits; it is further than 5e-9 from the
documented 93.11917937 (the two agree only to within 1e-5), and LmB_MeV is
further than 5e-8 from the documented 931.1917937. -/
theorem LrhoNuc_MeV_value :
    |LrhoNuc_MeV - 93.11917159| ≤ 5e-9 ∧
    5e-9 < |LrhoNuc_MeV - 93.11917937| ∧ |LrhoNuc_MeV - 93.11917937| ≤ 1e-5 ∧
    LmB_MeV = 10 * LrhoNuc_MeV ∧ 5e-8 < |LmB_MeV - 931.1917937| := by
  refine ⟨?_, ?_, ?_, rfl, ?_⟩
  · rw [abs_le]; simp only [LrhoNuc_MeV, LrhoNuc_si, c0_2, c0, qe]; norm_num
  · rw [lt_abs]; right; simp only [LrhoNuc_MeV, LrhoNuc_si, c0_2, c0, qe]; norm_num
  · rw [abs_le]; simp only [LrhoNuc_MeV, LrhoNuc_si, c0_2, c0, qe]; norm_num
  · rw [lt_abs]; right
    simp only [LmB_MeV, LrhoNuc_MeV, LrhoNuc_si, c0_2, c0, qe]; norm_num

/-- C4: evaluated from the literals, ckgm2s1km2 = G/c0_3*1e-6 is 2.47702e-42 to
six significant digits; it is further than 5e-36 from the documented
2.47702e-30, which is 10^12 times larger. -/
theorem ckgm2s1km2_value :
    |ckgm2s1km2 - 2.47702e-42| ≤ 5e-48 ∧ 5e-36 < |ckgm2s1km2 - 2.47702e-30| ∧
    |ckgm2s1km2 * 10 ^ 12 - 2.47702e-30| ≤ 5e-36 := by
  refine ⟨?_, ?_, ?_⟩
  · rw [abs_le]; simp only [ckgm2s1km2, G, c0_3, c0_2, c0]; norm_num
  · rw [lt_abs]; right; simp only [ckgm2s1km2, G, c0_3, c0_2, c0]; norm_num
  · rw [abs_le]; simp only [ckgm2s1km2, G, c0_3, c0_2, c0]; norm_num

/-- C5: the solar mass in kilometres MSkm = MSkg*G/c0_2*1e-3 is within 5e-6 of
the documented 1.47657. -/
theorem MSkm_value : |MSkm - 1.47657| ≤ 5e-6 := by
  rw [abs_le]; simp only [MSkm, MSkg, G, c0_2, c0]; norm_num

/-- C6: cMeVkm = G*qe/c0_4*1e3 is within 5e-66 of the documented 1.32379e-60
and cMeVfm3km2 = cMeVkm*cfm3km3 is within 5e-12 of the documented 1.32379e-06. -/
theorem cMeVkm_value :
    |cMeVkm - 1.32379e-60| ≤ 5e-66 ∧ cMeVfm3km2 = cMeVkm * cfm3km3 ∧
    |cMeVfm3km2 - 1.32379e-06| ≤ 5e-12 := by
  refine ⟨?_, rfl, ?_⟩
  · rw [abs_le]; simp only [cMeVkm, G, qe, c0_4, c0_3, c0_2, c0]; norm_num
  · rw [abs_le]
    simp only [cMeVfm3km2, cfm3km3, cMeVkm, G, qe, c0_4, c0_3, c0_2, c0]; norm_num

/-- C9: each CGS/SI conversion factor lies within half a unit of the sixth
significant digit of the value documented beside it: cdyncm2km2 of 8.26245e-40,
cgcm3km2 of 7.42592e-19, cHzkm of 3.33564e-6, ckgm2km3 of 7.42592e-37 and
ckgm3km2 of 7.42592e-22. -/
theorem cgs_si_factor_values :
    |cdyncm2km2 - 8.26245e-40| ≤ 5e-46 ∧ |cgcm3km2 - 7.42592e-19| ≤ 5e-25 ∧
    |cHzkm - 3.33564e-6| ≤ 5e-12 ∧ |ckgm2km3 - 7.42592e-37| ≤ 5e-43 ∧
    |ckgm3km2 - 7.42592e-22| ≤ 5e-28 := by
  refine ⟨?_, ?_, ?_, ?_, ?_⟩
  · rw [abs_le]; simp only [cdyncm2km2, G, c0_4, c0_3, c0_2, c0]; norm_num
  · rw [abs_le]; simp only [cgcm3km2, G, c0_2, c0]; norm_num
  · rw [abs_le]; simp only [cHzkm, c0]; norm_num
  · rw [abs_le]; simp only [ckgm2km3, G, c0_2, c0]; norm_num
  · rw [abs_le]; simp only [ckgm3km2, G, c0_2, c0]; norm_num

/-- C10: each electromagnetic conversion factor lies within half a unit of the
sixth significant digit of the value documented beside it: cTkm of 2.87445e-16,
cA of 2.87445e-26, cCkm of 8.61738e-21, cV of 9.58812e-28, cAm2km2 of
2.87445e-32, cGskm of 2.87445e-20 and cGTkm of 2.87445e-7. -/
theorem em_factor_values :
    |cTkm - 2.87445e-16| ≤ 5e-22 ∧ |cA - 2.87445e-26| ≤ 5e-32 ∧
    |cCkm - 8.61738e-21| ≤ 5e-27 ∧ |cV - 9.58812e-28| ≤ 5e-34 ∧
    |cAm2km2 - 2.87445e-32| ≤ 5e-38 ∧ |cGskm - 2.87445e-20| ≤ 5e-26 ∧
    |cGTkm - 2.87445e-7| ≤ 5e-13 := by
  refine ⟨?_, ?_, ?_, ?_, ?_, ?_, ?_⟩
  · rw [abs_le]; simp only [cTkm, c0_2, c0]; norm_num
  · rw [abs_le]; simp only [cA, c0_2, c0]; norm_num
  · rw [abs_le]; simp only [cCkm, c0]; norm_num
  · rw [abs_le]; simp only [cV, c0_3, c0_2, c0]; norm_num
  · rw [abs_le]; simp only [cAm2km2, cA, c0_2, c0]; norm_num
  · rw [abs_le]; simp only [cGskm, cTkm, c0_2, c0]; norm_num
  · rw [abs_le]; simp only [cGTkm, cTkm, c0_2, c0]; norm_num

/-! ## Mathematical constants -/

/-- Rational enclosure of the square root of five used for the golden ratio. -/
lemma sqrt_five_bounds :
    (2.236067977499789 : ℝ) < Real.sqrt 5 ∧ Real.sqrt 5 < (2.236067977499790 : ℝ) := by
  constructor
  · rw [Real.lt_sqrt (by norm_num)]; norm_num
  · rw [Real.sqrt_lt (by norm_num) (by norm_num)]; norm_num

/-- C7: read as exact decimal literals, the pi-based constants are within 1e-15
of the real numbers they name: M_2PI of 2*pi, M_4PI of 4*pi and M_PI_SQARE of
pi^2. -/
theorem pi_constants_close :
    |(M_2PI : ℝ) - 2 * Real.pi| < 1e-15 ∧ |(M_4PI : ℝ) - 4 * Real.pi| < 1e-15 ∧
    |(M_PI_SQARE : ℝ) - Real.pi ^ 2| < 1e-15 := by
  have hlo := Real.pi_gt_d20
  have hhi := Real.pi_lt_d20
  have hpos : (0 : ℝ) < Real.pi := Real.pi_pos
  refine ⟨?_, ?_, ?_⟩
  · rw [abs_lt]; simp only [M_2PI]; push_cast
    constructor <;> norm_num at hlo hhi ⊢ <;> linarith
  · rw [abs_lt]; simp only [M_4PI]; push_cast
    constructor <;> norm_num at hlo hhi ⊢ <;> linarith
  · have hsq_lo : (3.14159265358979323846 : ℝ) ^ 2 < Real.pi ^ 2 :=
      pow_lt_pow_left₀ hlo (by norm_num) (by norm_num)
    have hsq_hi : Real.pi ^ 2 < (3.14159265358979323847 : ℝ) ^ 2 :=
      pow_lt_pow_left₀ hhi hpos.le (by norm_num)
    rw [abs_lt]; simp only [M_PI_SQARE]; push_cast
    constructor <;> norm_num at hsq_lo hsq_hi ⊢ <;> linarith

/-- C8: read as its exact decimal literal, M_PHI is within 1e-15 of the golden
ratio (sqrt(5)+1)/2 and satisfies the defining equation x^2 = x + 1 up to
1e-14. -/
theorem M_PHI_golden :
    |(M_PHI : ℝ) - (Real.sqrt 5 + 1) / 2| < 1e-15 ∧
    |M_PHI ^ 2 - M_PHI - 1| < 1e-14 := by
  obtain ⟨hlo, hhi⟩ := sqrt_five_bounds
  refine ⟨?_, ?_⟩
  · rw [abs_lt]; simp only [M_PHI]; push_cast
    constructor <;> norm_num at hlo hhi ⊢ <;> linarith
  · rw [abs_lt]; simp only [M_PHI]; norm_num

/-! ## Domain of the derivations -/

/-- Every entry of the table is strictly positive. -/
lemma table_pos :
    0 < c0 ∧ 0 < G ∧ 0 < mu0over4pi ∧ 0 < kB ∧ 0 < hbar ∧ 0 < c0_2 ∧ 0 < c0_3 ∧
    0 < c0_4 ∧ 0 < c0c0_cgs ∧ 0 < qe ∧ 0 < mn ∧ 0 < mp ∧ 0 < me ∧ 0 < MSkg ∧ 0 < MSkm ∧
    0 < MEkg ∧ 0 < MEkm ∧ 0 < cfm3km3 ∧ 0 < cMeVkm ∧ 0 < cMeVfm3km2 ∧ 0 < cdyncm2km2 ∧
    0 < cgcm3km2 ∧ 0 < cHzkm ∧ 0 < ckgm2s1km2 ∧ 0 < ckgm2km3 ∧ 0 < ckgm3km2 ∧ 0 < cTkm ∧
    0 < cA ∧ 0 < cCkm ∧ 0 < cV ∧ 0 < cAm2km2 ∧ 0 < cGskm ∧ 0 < cGTkm ∧ 0 < LrhoNuc_si ∧
    0 < LrhoNuc_cgs ∧ 0 < LrhoNuc_MeV ∧ 0 < LrhoNuc_km ∧ 0 < LmB_MeV ∧ 0 < LmB_km ∧
    0 < LnNuc_fm ∧ 0 < LnNuc_km ∧ 0 < M_2PI ∧ 0 < M_4PI ∧ 0 < M_PI_SQARE ∧ 0 < M_PHI := by
  refine ⟨?_, ?_, ?_, ?_, ?_, ?_, ?_, ?_, ?_, ?_, ?_, ?_, ?_, ?_, ?_, ?_, ?_, ?_, ?_, ?_, ?_, ?_, ?_, ?_, ?_, ?_, ?_, ?_, ?_, ?_, ?_, ?_, ?_, ?_, ?_, ?_, ?_, ?_, ?_, ?_, ?_, ?_, ?_, ?_, ?_⟩ <;>
    simp only [
      c0, G, mu0over4pi, kB, hbar, c0_2, c0_3, c0_4, c0c0_cgs, qe, mn, mp, me, MSkg,
      MSkm, MEkg, MEkm, cfm3km3, cMeVkm, cMeVfm3km2, cdyncm2km2, cgcm3km2, cHzkm,
      ckgm2s1km2, ckgm2km3, ckgm3km2, cTkm, cA, cCkm, cV, cAm2km2, cGskm, cGTkm,
      LrhoNuc_si, LrhoNuc_cgs, LrhoNuc_MeV, LrhoNuc_km, LmB_MeV, LmB_km, LnNuc_fm,
      LnNuc_km, M_2PI, M_4PI, M_PI_SQARE, M_PHI] <;>
    norm_num

/-- C11: every divisor that occurs in a formula (c0, c0_2, c0_3, c0_4, qe) is
non-zero, every constant of the table is strictly positive, and every
conversion factor is invertible. -/
theorem table_domain :
    (c0 ≠ 0 ∧ c0_2 ≠ 0 ∧ c0_3 ≠ 0 ∧ c0_4 ≠ 0 ∧ qe ≠ 0) ∧
    (0 < c0 ∧ 0 < G ∧ 0 < mu0over4pi ∧ 0 < kB ∧ 0 < hbar ∧ 0 < c0_2 ∧ 0 < c0_3 ∧
    0 < c0_4 ∧ 0 < c0c0_cgs ∧ 0 < qe ∧ 0 < mn ∧ 0 < mp ∧ 0 < me ∧ 0 < MSkg ∧ 0 < MSkm ∧
    0 < MEkg ∧ 0 < MEkm ∧ 0 < cfm3km3 ∧ 0 < cMeVkm ∧ 0 < cMeVfm3km2 ∧ 0 < cdyncm2km2 ∧
    0 < cgcm3km2 ∧ 0 < cHzkm ∧ 0 < ckgm2s1km2 ∧ 0 < ckgm2km3 ∧ 0 < ckgm3km2 ∧ 0 < cTkm ∧
    0 < cA ∧ 0 < cCkm ∧ 0 < cV ∧ 0 < cAm2km2 ∧ 0 < cGskm ∧ 0 < cGTkm ∧ 0 < LrhoNuc_si ∧
    0 < LrhoNuc_cgs ∧ 0 < LrhoNuc_MeV ∧ 0 < LrhoNuc_km ∧ 0 < LmB_MeV ∧ 0 < LmB_km ∧
    0 < LnNuc_fm ∧ 0 < LnNuc_km ∧ 0 < M_2PI ∧ 0 < M_4PI ∧ 0 < M_PI_SQARE ∧ 0 < M_PHI) ∧
    (cfm3km3 * cfm3km3⁻¹ = 1 ∧ cMeVkm * cMeVkm⁻¹ = 1 ∧ cMeVfm3km2 * cMeVfm3km2⁻¹ = 1 ∧
    cdyncm2km2 * cdyncm2km2⁻¹ = 1 ∧ cgcm3km2 * cgcm3km2⁻¹ = 1 ∧ cHzkm * cHzkm⁻¹ = 1 ∧
    ckgm2s1km2 * ckgm2s1km2⁻¹ = 1 ∧ ckgm2km3 * ckgm2km3⁻¹ = 1 ∧
    ckgm3km2 * ckgm3km2⁻¹ = 1 ∧ cTkm * cTkm⁻¹ = 1 ∧ cA * cA⁻¹ = 1 ∧ cCkm * cCkm⁻¹ = 1 ∧
    cV * cV⁻¹ = 1 ∧ cAm2km2 * cAm2km2⁻¹ = 1 ∧ cGskm * cGskm⁻¹ = 1 ∧ cGTkm * cGTkm⁻¹ = 1) := by
  have h := table_pos
  obtain ⟨h1, h2, h3, h4, h5, h6, h7, h8, h9, h10, h11, h12, h13, h14, h15, h16, h17,
    h18, h19, h20, h21, h22, h23, h24, h25, h26, h27, h28, h29, h30, h31, h32, h33,
    h34, h35, h36, h37, h38, h39, h40, h41, h42, h43, h44, h45⟩ := h
  refine ⟨⟨h1.ne', h6.ne', h7.ne', h8.ne', h10.ne'⟩, table_pos, ?_⟩
  exact ⟨mul_inv_cancel₀ h18.ne', mul_inv_cancel₀ h19.ne', mul_inv_cancel₀ h20.ne',
    mul_inv_cancel₀ h21.ne', mul_inv_cancel₀ h22.ne', mul_inv_cancel₀ h23.ne',
    mul_inv_cancel₀ h24.ne', mul_inv_cancel₀ h25.ne', mul_inv_cancel₀ h26.ne',
    mul_inv_cancel₀ h27.ne', mul_inv_cancel₀ h28.ne', mul_inv_cancel₀ h29.ne',
    mul_inv_cancel₀ h30.ne', mul_inv_cancel₀ h31.ne', mul_inv_cancel₀ h32.ne',
    mul_inv_cancel₀ h33.ne'⟩

/-! ## Relations between the conversion factors -/

/-- C12: the three unit representations of the nuclear density of LORENE
convert to the same geometric value: LrhoNuc_si*ckgm3km2, LrhoNuc_cgs*cgcm3km2
and LrhoNuc_MeV*cMeVfm3km2 all equal LrhoNuc_km. -/
theorem LrhoNuc_representations_agree :
    LrhoNuc_si * ckgm3km2 = LrhoNuc_km ∧ LrhoNuc_cgs * cgcm3km2 = LrhoNuc_km ∧
    LrhoNuc_MeV * cMeVfm3km2 = LrhoNuc_km := by
  refine ⟨rfl, ?_, ?_⟩
  · simp only [LrhoNuc_cgs, cgcm3km2, LrhoNuc_km, ckgm3km2, LrhoNuc_si, G, c0_2, c0]
    norm_num
  · simp only [LrhoNuc_MeV, cMeVfm3km2, cMeVkm, cfm3km3, LrhoNuc_km, ckgm3km2,
      LrhoNuc_si, G, qe, c0_4, c0_3, c0_2, c0]
    norm_num

/-- C13: the baryon mass of LORENE times its baryon number density gives its
mass density in both unit systems: LmB_MeV*LnNuc_fm = LrhoNuc_MeV and
LmB_km*LnNuc_km = LrhoNuc_km. -/
theorem LmB_times_LnNuc :
    LmB_MeV * LnNuc_fm = LrhoNuc_MeV ∧ LmB_km * LnNuc_km = LrhoNuc_km := by
  refine ⟨?_, ?_⟩
  · simp only [LmB_MeV, LnNuc_fm, LrhoNuc_MeV, LrhoNuc_si, qe, c0_2, c0]
    norm_num
  · simp only [LmB_km, LmB_MeV, LnNuc_km, LnNuc_fm, cfm3km3, cMeVkm, LrhoNuc_MeV,
      LrhoNuc_km, ckgm3km2, LrhoNuc_si, G, qe, c0_4, c0_3, c0_2, c0]
    norm_num

/-- C14: with k = cA*c0_2 and k' = cV*c0_3, k = 2.583424084427487e-9,
k' = 0.02583424084427487, k' = 1e7*k, k^2 is within relative 1e-15 of
G*mu0over4pi and k'^2 within relative 1e-15 of G/mu0over4pi. -/
theorem em_coefficients_are_roots :
    cA * c0_2 = 2.583424084427487e-9 ∧ cV * c0_3 = 0.02583424084427487 ∧
    cV * c0_3 = 1e7 * (cA * c0_2) ∧
    |(cA * c0_2) ^ 2 - G * mu0over4pi| ≤ 1e-15 * (G * mu0over4pi) ∧
    |(cV * c0_3) ^ 2 - G / mu0over4pi| ≤ 1e-15 * (G / mu0over4pi) := by
  refine ⟨?_, ?_, ?_, ?_, ?_⟩
  · simp only [cA, c0_2, c0]; norm_num
  · simp only [cV, c0_3, c0_2, c0]; norm_num
  · simp only [cV, cA, c0_3, c0_2, c0]; norm_num
  · rw [abs_le]; simp only [cA, G, mu0over4pi, c0_2, c0]; norm_num
  · rw [abs_le]; simp only [cV, G, mu0over4pi, c0_3, c0_2, c0]; norm_num

/-- C15: the electromagnetic factors are consistent with one another and with
cHzkm: cCkm*cHzkm = cA, cTkm = cV*c0*1e3 and cTkm = 1e10*cA. -/
theorem em_factors_consistent :
    cCkm * cHzkm = cA ∧ cTkm = cV * c0 * 1e3 ∧ cTkm = 1e10 * cA := by
  refine ⟨?_, ?_, ?_⟩
  · simp only [cCkm, cHzkm, cA, c0_2, c0]; norm_num
  · simp only [cTkm, cV, c0_3, c0_2, c0]; norm_num
  · simp only [cTkm, cA, c0_2, c0]; norm_num

/-- C16: the CGS and SI density factors are consistent:
cgcm3km2 = c0c0_cgs*cdyncm2km2, cgcm3km2 = 1000*ckgm3km2 and
cMeVfm3km2 = cdyncm2km2*qe*1e52. -/
theorem density_factors_consistent :
    cgcm3km2 = c0c0_cgs * cdyncm2km2 ∧ cgcm3km2 = 1000 * ckgm3km2 ∧
    cMeVfm3km2 = cdyncm2km2 * qe * 1e52 := by
  refine ⟨?_, ?_, ?_⟩
  · simp only [cgcm3km2, c0c0_cgs, cdyncm2km2, G, c0_4, c0_3, c0_2, c0]; norm_num
  · simp only [cgcm3km2, ckgm3km2, G, c0_2, c0]; norm_num
  · simp only [cMeVfm3km2, cMeVkm, cfm3km3, cdyncm2km2, G, qe, c0_4, c0_3, c0_2, c0]
    norm_num

/-! ## The square of the speed of light and 53-bit significands -/

/-- No integer significand below 2^53, scaled by a power of two, gives
89875517873681764: the number is 4 times an odd number and at least 2^56. -/
lemma no_significand (m e : ℤ) (hm : |m| < 2 ^ 53) :
    (m : ℚ) * (2 : ℚ) ^ e ≠ 89875517873681764 := by
  intro h
  obtain ⟨hlo, hhi⟩ := abs_lt.mp hm
  rcases e with k | k
  · have h2 : m * 2 ^ k = (89875517873681764 : ℤ) := by
      have h3 : (m : ℚ) * (2 : ℚ) ^ k = 89875517873681764 := by
        simpa [zpow_natCast] using h
      exact_mod_cast h3
    rcases k with _ | _ | _ | j
    · norm_num at h2; omega
    · norm_num at h2; omega
    · norm_num at h2; omega
    · have h4 : m * 2 ^ (j + 1 + 1 + 1) = 8 * (m * 2 ^ j) := by ring
      rw [h4] at h2
      omega
  · have hp : (0 : ℚ) < (2 : ℚ) ^ (k + 1) := by positivity
    have h3 : (m : ℚ) = 89875517873681764 * (2 : ℚ) ^ (k + 1) := by
      rw [zpow_negSucc] at h
      field_simp at h
      linarith
    have h5 : m = 89875517873681764 * (2 : ℤ) ^ (k + 1) := by exact_mod_cast h3
    have h6 : (1 : ℤ) ≤ 2 ^ (k + 1) := one_le_pow₀ (by norm_num)
    omega

/-- C17: the exact product c0*c0 = 89875517873681764 is at least 2^56, is 4
times an odd number and no multiple of 16, so no number m*2^e with an integer
|m| < 2^53 equals it (nor the exact c0_2): it does not fit a 53-bit
significand. -/
theorem c0_2_exceeds_significand (m e : ℤ) (hm : |m| < 2 ^ 53) :
    c0 * c0 = 89875517873681764 ∧ (2 : ℚ) ^ 56 ≤ c0 * c0 ∧
    (∃ q : ℤ, Odd q ∧ c0 * c0 = 4 * q) ∧ (∀ j : ℤ, c0 * c0 ≠ 16 * j) ∧
    (m : ℚ) * (2 : ℚ) ^ e ≠ c0 * c0 ∧ (m : ℚ) * (2 : ℚ) ^ e ≠ c0_2 := by
  have hval : c0 * c0 = 89875517873681764 := by simp only [c0]; norm_num
  refine ⟨hval, ?_, ⟨22468879468420441, by decide, ?_⟩, ?_, ?_, ?_⟩
  · rw [hval]; norm_num
  · rw [hval]; norm_num
  · intro j hj
    rw [hval] at hj
    have hj2 : (89875517873681764 : ℤ) = 16 * j := by exact_mod_cast hj
    omega
  · rw [hval]; exact no_significand m e hm
  · rw [c0_2, hval]; exact no_significand m e hm

/-- The double nearest to c0*c0 has significand 5617219867105110 and exponent
4; it is below 2^53 in significand and differs from the exact square. -/
theorem c0_2_exceeds_significand_witness :
    |(5617219867105110 : ℤ)| < 2 ^ 53 ∧
    ((5617219867105110 : ℤ) : ℚ) * (2 : ℚ) ^ (4 : ℤ) ≠ c0_2 :=
  ⟨by decide, (c0_2_exceeds_significand 5617219867105110 4 (by decide)).2.2.2.2.2⟩

end units
